import Mathlib

/-
Verification development for the token-verification and role-authorization
subsystem of the bind-my-git backend (src/backend/auth/oidc_auth.py and the
fine-grained access checks in src/backend/routers/projects.py and
src/backend/routers/tasks.py).

The Python code is shallowly embedded: the mutable pair
(_public_keys, _public_keys_cache_time) becomes an explicit AuthState threaded
through the functions; the network is an explicit FetchResult parameter;
wall-clock time is an explicit Int parameter; raised HTTPExceptions become
Except.error; print/logger calls become an explicit effect trace.
-/

namespace BMG

/-- Caller-visible detail strings of the HTTPExceptions raised by the code,
modelled as an enumeration (one constructor per distinct Python detail string).
The Python string for each constructor is given in the comment next to it. -/
inductive Detail
  | authServiceUnavailable        -- "Authentication service unavailable" (oidc_auth.py:86)
  | failedToRetrieveKeys          -- "Failed to retrieve authentication keys" (oidc_auth.py:92)
  | noPublicKeysFound             -- "No public keys found in Keycloak" (oidc_auth.py:64)
  | publicKeyNotFound (kid : String)  -- "Public key not found for kid: {kid}" (oidc_auth.py:107)
  | tokenMissingKeyId             -- "Token missing key ID" (oidc_auth.py:124)
  | tokenExpired                  -- "Token has expired" (oidc_auth.py:147)
  | invalidTokenAudience          -- "Invalid token audience" (oidc_auth.py:152)
  | invalidTokenIssuer            -- "Invalid token issuer" (oidc_auth.py:157)
  | invalidTokenSignature         -- "Invalid token signature" (oidc_auth.py:162)
  | invalidTokenFormat            -- "Invalid token format" (oidc_auth.py:168)
  | tokenVerificationFailed       -- "Token verification failed" (oidc_auth.py:174)
  | missingRequiredClaims (claims : List String)  -- "Token missing required claims: {missing_claims}" (oidc_auth.py:185)
  | tokenNotYetValid              -- "Token not yet valid" (oidc_auth.py:193)
  | userNotFound                  -- "User not found" (utils/helper.py:18)
  | projectNotFound               -- "Project not found" (routers/projects.py:141)
  | taskNotFound                  -- "Task not found" (utils/helper.py:25)
  | notAuthorizedUpdateProject    -- "Not authorized to update this project. ..." (routers/projects.py:104)
  | accessDeniedUpdateTask        -- "Access denied. You don't have permission to update this task." (routers/tasks.py:318)
  deriving DecidableEq, Repr

/-- Model of fastapi.HTTPException: a status code plus a detail message. -/
structure HTTPException where
  status_code : Nat
  detail : Detail
  deriving DecidableEq, Repr

/-- Configuration fields read by OIDCAuth (config/settings.py). Times are in
seconds, modelled as Int. -/
structure Settings where
  PUBLIC_KEY_CACHE_TTL : Int        -- default 3600
  JWT_ALGORITHM : String            -- default "RS256"
  JWT_AUDIENCE : String             -- default "account"
  JWT_TOKEN_EXPIRY_TOLERANCE : Int  -- default 30; leeway for exp/nbf
  deriving DecidableEq, Repr

/-- One entry of the JWKS response (`certs["keys"]`). `kid` is None when the
entry has no "kid" field (Python `key_data.get("kid")` falsy). `material` is
the public key produced by `jwt.algorithms.RSAAlgorithm.from_jwk(key_data)`;
`none` models the case where `from_jwk` raises (unparsable entry). Key
material is abstracted as a string identifier. -/
structure JWK where
  kid : Option String
  material : Option String
  deriving DecidableEq, Repr

/-- Outcome of the HTTP GET against the Keycloak certs endpoint.
`networkError` models `httpx.RequestError`; `response keys` models a 200
response whose JSON `"keys"` array is `keys` (an absent `"keys"` field and an
empty array are both falsy for `certs.get("keys")`, so both are modelled by
`response []`). -/
inductive FetchResult
  | networkError
  | response (keys : List JWK)
  deriving DecidableEq, Repr

/-- The mutable state of an OIDCAuth instance: `publicKeys` models the
`_public_keys` dict (kid to key material, as an association list) and
`cacheTime` models `_public_keys_cache_time` (a Unix timestamp, None before the
first successful fetch). -/
structure AuthState where
  publicKeys : List (String × String)
  cacheTime : Option Int
  deriving DecidableEq, Repr

/-- The claims of a decoded token payload that the code ever reads. Each claim
is optional: `none` means the claim is absent from the payload dict. `aud` is
modelled as a list of audience strings. -/
structure Payload where
  sub : Option String := none
  iat : Option Int := none
  exp : Option Int := none
  iss : Option String := none
  nbf : Option Int := none
  aud : Option (List String) := none
  deriving DecidableEq, Repr

/-- A structurally well-formed signed token, as far as the code observes it:
the `kid` and `alg` of its unverified header, the key material its signature
was produced with (signature verification succeeds iff this equals the
resolved public key), and its payload. -/
structure Token where
  kid : Option String
  alg : String
  signedWith : String
  payload : Payload
  deriving DecidableEq, Repr

/-- Observable side effects of the Python code other than the cache state:
stdout prints, log records and outgoing HTTP fetches of the certs endpoint. -/
inductive Effect
  | printToken (tok : Token)      -- print(f"token: {token}") (oidc_auth.py:114)
  | httpGet                       -- client.get(settings.keycloak_certs_url) (oidc_auth.py:57)
  | logWarning (kid : String)     -- logger.warning("Failed to parse key ...") (oidc_auth.py:76)
  | logError                      -- logger.error(...) in an except branch
  deriving DecidableEq, Repr

/-- Python dict assignment `d[k] = v` on an association list: replaces the
binding of `k` if present, otherwise appends it. -/
def dictInsert (m : List (String × String)) (k v : String) : List (String × String) :=
  if m.any (fun p => p.1 == k) then m.map (fun p => if p.1 == k then (k, v) else p)
  else m ++ [(k, v)]

/-- Python dict lookup `d.get(k)` on an association list. -/
def dictLookup (m : List (String × String)) (k : String) : Option String :=
  (m.find? (fun p => p.1 == k)).map (fun p => p.2)

/-- The JWK-parsing loop of get_public_keys (oidc_auth.py:68-76), with the
accumulated dict and warning effects made explicit: entries without a kid are
skipped silently, entries whose material fails to parse are skipped with a
warning, the rest are inserted into the dict. -/
def parseJwksAux (acc : List (String × String)) (warns : List Effect) :
    List JWK → List (String × String) × List Effect
  | [] => (acc, warns)
  | kd :: rest =>
    match kd.kid with
    | none => parseJwksAux acc warns rest
    | some kid =>
      match kd.material with
      | some pk => parseJwksAux (dictInsert acc kid pk) warns rest
      | none => parseJwksAux acc (warns ++ [Effect.logWarning kid]) rest

/-- Parse a JWKS response body into the public-key dict plus the warnings
emitted for unparsable entries. -/
def parseJwks (keys : List JWK) : List (String × String) × List Effect :=
  parseJwksAux [] [] keys

/-- The cache-validity test of get_public_keys (oidc_auth.py:47-52):
a cache timestamp exists, is younger than the TTL, and the cached dict is
non-empty (all three conjuncts are the Python truthiness/comparison tests). -/
def cacheValid (s : Settings) (now : Int) (st : AuthState) : Bool :=
  match st.cacheTime with
  | some t => decide (now - t < s.PUBLIC_KEY_CACHE_TTL) && !st.publicKeys.isEmpty
  | none => false

/-- OIDCAuth.get_public_keys (oidc_auth.py:43-93). Returns the cached dict
unchanged when the cache is valid; otherwise fetches. On `httpx.RequestError`
raises 503 "Authentication service unavailable". When the response has no keys
the inner HTTPException(500, "No public keys found in Keycloak") is itself
caught by the function's generic `except Exception` handler (oidc_auth.py:88)
and replaced by HTTPException(500, "Failed to retrieve authentication keys").
Otherwise the parsed dict (possibly empty, when every entry fails to parse) is
stored in the cache together with the current time and returned. -/
def get_public_keys (s : Settings) (now : Int) (net : FetchResult) (st : AuthState) :
    Except HTTPException (List (String × String)) × AuthState × List Effect :=
  if cacheValid s now st then (Except.ok st.publicKeys, st, [])
  else
    match net with
    | FetchResult.networkError =>
      (Except.error ⟨503, Detail.authServiceUnavailable⟩, st, [Effect.httpGet, Effect.logError])
    | FetchResult.response keys =>
      if keys.isEmpty then
        (Except.error ⟨500, Detail.failedToRetrieveKeys⟩, st, [Effect.httpGet, Effect.logError])
      else
        let pk := parseJwks keys
        (Except.ok pk.1, ⟨pk.1, some now⟩, Effect.httpGet :: pk.2)

/-- OIDCAuth.get_public_key_by_kid (oidc_auth.py:95-109): look the kid up in
the result of get_public_keys; on a miss, clear the cache timestamp (forcing
the next call to bypass the TTL), call get_public_keys once more, and if the
kid is still absent raise 401 "Public key not found for kid: {kid}". -/
def get_public_key_by_kid (s : Settings) (now : Int) (net : FetchResult) (kid : String)
    (st : AuthState) : Except HTTPException String × AuthState × List Effect :=
  match get_public_keys s now net st with
  | (Except.error e, st1, fx) => (Except.error e, st1, fx)
  | (Except.ok pk, st1, fx) =>
    match dictLookup pk kid with
    | some k => (Except.ok k, st1, fx)
    | none =>
      match get_public_keys s now net ⟨st1.publicKeys, none⟩ with
      | (Except.error e, st3, fx2) => (Except.error e, st3, fx ++ fx2)
      | (Except.ok pk2, st3, fx2) =>
        match dictLookup pk2 kid with
        | some k => (Except.ok k, st3, fx ++ fx2)
        | none => (Except.error ⟨401, Detail.publicKeyNotFound kid⟩, st3, fx ++ fx2)

/-- Failure modes of PyJWT's jwt.decode, restricted to the exception classes
the call at oidc_auth.py:131-138 can raise with its arguments. The constructors
tagged [InvalidTokenError subclass] are the ones that the handler chain of
verify_token only catches via its generic `except InvalidTokenError` branch. -/
inductive JwtError
  | expiredSignature      -- ExpiredSignatureError
  | immatureSignature     -- ImmatureSignatureError [InvalidTokenError subclass]
  | invalidAudience       -- InvalidAudienceError
  | missingAudClaim       -- MissingRequiredClaimError("aud") [InvalidTokenError subclass]
  | invalidSignature      -- InvalidSignatureError
  | invalidAlgorithm      -- InvalidAlgorithmError [InvalidTokenError subclass]
  deriving DecidableEq, Repr

/-- Model of the external library call jwt.decode(token, public_key,
algorithms=[JWT_ALGORITHM], audience=JWT_AUDIENCE,
leeway=JWT_TOKEN_EXPIRY_TOLERANCE) at oidc_auth.py:131-138, following PyJWT's
documented default behavior (options verify_signature, verify_exp, verify_nbf,
verify_iat, verify_aud all enabled): the header alg must be among the allowed
algorithms; the signature must verify against the given key; then the claims
are validated: nbf must not exceed now + leeway, exp must exceed now - leeway,
and since an expected audience is passed the aud claim must be present and
contain it. iat validation only requires iat to be numeric, which the Int
model makes vacuous; issuer validation is skipped because the issuer argument
is commented out in the source (oidc_auth.py:136). Each temporal claim is
checked only if present, as PyJWT does. -/
def jwtDecode (s : Settings) (now : Int) (key : String) (tok : Token) :
    Except JwtError Payload :=
  if tok.alg != s.JWT_ALGORITHM then Except.error JwtError.invalidAlgorithm
  else if tok.signedWith != key then Except.error JwtError.invalidSignature
  else if (match tok.payload.nbf with
           | some n => decide (now + s.JWT_TOKEN_EXPIRY_TOLERANCE < n)
           | none => false) then Except.error JwtError.immatureSignature
  else if (match tok.payload.exp with
           | some e => decide (e ≤ now - s.JWT_TOKEN_EXPIRY_TOLERANCE)
           | none => false) then Except.error JwtError.expiredSignature
  else
    match tok.payload.aud with
    | none => Except.error JwtError.missingAudClaim
    | some auds =>
      if auds.contains s.JWT_AUDIENCE then Except.ok tok.payload
      else Except.error JwtError.invalidAudience

/-- The list ["sub", "iat", "exp", "iss"] of required claims
(oidc_auth.py:180). -/
def requiredClaims : List String := ["sub", "iat", "exp", "iss"]

/-- Membership test `claim in payload` for the claim names the code queries. -/
def payloadHas (p : Payload) (c : String) : Bool :=
  match c with
  | "sub" => p.sub.isSome
  | "iat" => p.iat.isSome
  | "exp" => p.exp.isSome
  | "iss" => p.iss.isSome
  | _ => false

/-- The list comprehension at oidc_auth.py:181: the required claims absent
from the payload, in order. -/
def missingClaims (p : Payload) : List String :=
  requiredClaims.filter (fun c => !payloadHas p c)

/-- OIDCAuth._validate_token_payload (oidc_auth.py:177-194): raises 401 naming
the missing required claims when any of sub/iat/exp/iss is absent; then raises
401 "Token not yet valid" when the nbf claim is truthy (present and nonzero)
and strictly greater than the current time (no leeway here, unlike
jwt.decode). -/
def validate_token_payload (now : Int) (p : Payload) : Except HTTPException Unit :=
  if !(missingClaims p).isEmpty then
    Except.error ⟨401, Detail.missingRequiredClaims (missingClaims p)⟩
  else if (match p.nbf with
           | some n => !(n == 0) && decide (now < n)
           | none => false) then
    Except.error ⟨401, Detail.tokenNotYetValid⟩
  else Except.ok ()

/-- OIDCAuth.verify_token (oidc_auth.py:111-175). First it prints the raw
token to stdout (line 114). Inside the try block: a missing header kid raises
HTTPException(401, "Token missing key ID"); the key is resolved via
get_public_key_by_kid; jwt.decode verifies signature and standard claims;
_validate_token_payload runs last. The handler chain catches
ExpiredSignatureError, InvalidAudienceError, InvalidIssuerError and
InvalidSignatureError with specific 401 details, any other InvalidTokenError
as 401 "Invalid token format", and, crucially, `except Exception` catches
every HTTPException raised inside the try block (fastapi.HTTPException is an
Exception subclass) — including the 503/500 from get_public_keys, the 401 from
get_public_key_by_kid, the 401 "Token missing key ID", and every 401 from
_validate_token_payload — logging it and re-raising
HTTPException(401, "Token verification failed") instead. -/
def verify_token (s : Settings) (now : Int) (net : FetchResult) (tok : Token)
    (st : AuthState) : Except HTTPException Payload × AuthState × List Effect :=
  match tok.kid with
  | none =>
    (Except.error ⟨401, Detail.tokenVerificationFailed⟩, st,
      Effect.printToken tok :: [Effect.logError])
  | some kid =>
    match get_public_key_by_kid s now net kid st with
    | (Except.error _, st1, fx) =>
      (Except.error ⟨401, Detail.tokenVerificationFailed⟩, st1,
        Effect.printToken tok :: (fx ++ [Effect.logError]))
    | (Except.ok key, st1, fx) =>
      match jwtDecode s now key tok with
      | Except.error JwtError.expiredSignature =>
        (Except.error ⟨401, Detail.tokenExpired⟩, st1, Effect.printToken tok :: fx)
      | Except.error JwtError.invalidAudience =>
        (Except.error ⟨401, Detail.invalidTokenAudience⟩, st1, Effect.printToken tok :: fx)
      | Except.error JwtError.invalidSignature =>
        (Except.error ⟨401, Detail.invalidTokenSignature⟩, st1, Effect.printToken tok :: fx)
      | Except.error JwtError.immatureSignature =>
        (Except.error ⟨401, Detail.invalidTokenFormat⟩, st1,
          Effect.printToken tok :: (fx ++ [Effect.logError]))
      | Except.error JwtError.missingAudClaim =>
        (Except.error ⟨401, Detail.invalidTokenFormat⟩, st1,
          Effect.printToken tok :: (fx ++ [Effect.logError]))
      | Except.error JwtError.invalidAlgorithm =>
        (Except.error ⟨401, Detail.invalidTokenFormat⟩, st1,
          Effect.printToken tok :: (fx ++ [Effect.logError]))
      | Except.ok payload =>
        match validate_token_payload now payload with
        | Except.error _ =>
          (Except.error ⟨401, Detail.tokenVerificationFailed⟩, st1,
            Effect.printToken tok :: (fx ++ [Effect.logError]))
        | Except.ok _ => (Except.ok payload, st1, Effect.printToken tok :: fx)

/-- Number of outgoing certs-endpoint fetches recorded in an effect trace. -/
def countFetch (l : List Effect) : Nat :=
  (l.filter (fun e => match e with | Effect.httpGet => true | _ => false)).length

/-- A role container such as the value of "realm_access" or of one
"resource_access" entry: a dict that may or may not have a "roles" key. -/
structure ClientAccess where
  roles : Option (List String)
  deriving DecidableEq, Repr

/-- The shape of the user_info / current_user claim dict as far as the
role-checking code and the router user lookup read it: the "sub" claim, the
optional "realm_access" dict, and the optional "resource_access" dict (an
association list from client id to its role container). -/
structure UserInfo where
  sub : Option String := none
  realm_access : Option ClientAccess := none
  resource_access : Option (List (String × ClientAccess)) := none
  deriving DecidableEq, Repr

/-- The realm-level role list as the code extracts it:
user_info.get("realm_access", {}).get("roles", []) (oidc_auth.py:225) — a
missing "realm_access" dict or a missing "roles" key both yield []. -/
def realmRolesOf (u : UserInfo) : List String :=
  match u.realm_access with
  | some ra => ra.roles.getD []
  | none => []

/-- The per-client entries of resource_access:
user_info.get("resource_access", {}) (oidc_auth.py:230), missing dict = []. -/
def resourceAccessOf (u : UserInfo) : List (String × ClientAccess) :=
  u.resource_access.getD []

/-- OIDCAuth.check_role (oidc_auth.py:222-236): true when the required role is
in the realm role list, else true when some resource_access entry has it in
its role list (client_info.get("roles", [])), else false. -/
def check_role (user_info : UserInfo) (required_role : String) : Bool :=
  let realm_roles := realmRolesOf user_info
  if realm_roles.contains required_role then true
  else
    (resourceAccessOf user_info).any
      (fun ci => (ci.2.roles.getD []).contains required_role)

/-- OIDCAuth.get_all_roles (oidc_auth.py:238-252): concatenates the realm role
list with every client role list and removes duplicates via list(set(roles)).
Python's set iteration order is unspecified; the deduplicated list is modelled
as List.dedup of the concatenation (first occurrences kept). -/
def get_all_roles (user_info : UserInfo) : List String :=
  let roles := realmRolesOf user_info ++
    (resourceAccessOf user_info).flatMap (fun ci => ci.2.roles.getD [])
  roles.dedup

/-- A row of the users table as the lookups read it (models/user.py):
primary-key id and the keycloak_id column matched against the token's sub. -/
structure DbUser where
  id : String
  keycloak_id : String
  deriving DecidableEq, Repr

/-- A row of the projects table, restricted to the columns the fine-grained
check and the update handler touch. -/
structure Project where
  id : String
  owner_id : String
  name : String := ""
  description : String := ""
  status : String := ""
  customer_id : Option String := none
  deriving DecidableEq, Repr

/-- A row of the project_members table (project-scoped membership role). -/
structure ProjectMember where
  project_id : String
  user_id : String
  role : String
  deriving DecidableEq, Repr

/-- A row of the tasks table, restricted to the columns the fine-grained check
and the update handler touch. assigned_to is nullable. -/
structure DbTask where
  id : String
  project_id : String
  assigned_to : Option String := none
  title : String := ""
  status : String := ""
  deriving DecidableEq, Repr

/-- The relational store, as the association of the four tables the
fine-grained access checks query. -/
structure Db where
  users : List DbUser
  projects : List Project
  project_members : List ProjectMember
  tasks : List DbTask
  deriving DecidableEq, Repr

/-- utils/helper.lookup_user (helper.py:13-19): find the user row whose
keycloak_id equals the token's sub claim; 404 "User not found" otherwise. -/
def lookup_user (current_user : UserInfo) (db : Db) : Except HTTPException DbUser :=
  match db.users.find? (fun u => current_user.sub == some u.keycloak_id) with
  | some u => Except.ok u
  | none => Except.error ⟨404, Detail.userNotFound⟩

/-- utils/helper.lookup_task (helper.py:22-30): find the task row by id;
404 "Task not found" otherwise. -/
def lookup_task (task_id : String) (db : Db) : Except HTTPException DbTask :=
  match db.tasks.find? (fun t => t.id == task_id) with
  | some t => Except.ok t
  | none => Except.error ⟨404, Detail.taskNotFound⟩

/-- routers/projects.get_fine_grained_role (projects.py:129-160): look up the
requesting user and the project (404 on either miss), then compute the three
facts: is_admin_or_pm = check_role admin or check_role project_manager;
is_owner = project.owner_id == db_user.id; is_project_manager = a
project_members row exists for (project, user) with role "MANAGER". Project
ids are modelled as strings, so the UUID-parse branch (400 on malformed UUID)
is not modelled. -/
def get_fine_grained_role (current_user : UserInfo) (db : Db) (project_id : String) :
    Except HTTPException (Project × Bool × Bool × Bool) :=
  match lookup_user current_user db with
  | Except.error e => Except.error e
  | Except.ok db_user =>
    match db.projects.find? (fun p => p.id == project_id) with
    | none => Except.error ⟨404, Detail.projectNotFound⟩
    | some db_project =>
      let is_admin_or_pm :=
        check_role current_user "admin" || check_role current_user "project_manager"
      let is_owner := db_project.owner_id == db_user.id
      let is_project_manager := db.project_members.any
        (fun m => m.project_id == project_id && m.user_id == db_user.id &&
          m.role == "MANAGER")
      Except.ok (db_project, is_admin_or_pm, is_owner, is_project_manager)

/-- The optional fields of a ProjectUpdate body that the handler applies. -/
structure ProjectUpdate where
  name : Option String := none
  description : Option String := none
  status : Option String := none
  customer_id : Option String := none
  deriving DecidableEq, Repr

/-- The field-update block of update_project (projects.py:107-120): name,
description and status are applied when truthy (present and non-empty);
customer_id when present (`is not None`). -/
def applyProjectUpdate (p : Project) (pu : ProjectUpdate) : Project :=
  let p := match pu.name with
    | some v => if v.isEmpty then p else { p with name := v }
    | none => p
  let p := match pu.description with
    | some v => if v.isEmpty then p else { p with description := v }
    | none => p
  let p := match pu.status with
    | some v => if v.isEmpty then p else { p with status := v }
    | none => p
  match pu.customer_id with
  | some v => { p with customer_id := some v }
  | none => p

/-- routers/projects.update_project (projects.py:70-126): compute the
fine-grained facts; deny with 403 when none of admin-or-pm / owner / scoped
MANAGER holds (database unchanged); otherwise apply the update and commit
(modelled as replacing the project row). -/
def update_project (project_id : String) (pu : ProjectUpdate) (current_user : UserInfo)
    (db : Db) : Except HTTPException Project × Db :=
  match get_fine_grained_role current_user db project_id with
  | Except.error e => (Except.error e, db)
  | Except.ok (db_project, is_admin_or_pm, is_owner, is_project_manager) =>
    if !(is_admin_or_pm || is_owner || is_project_manager) then
      (Except.error ⟨403, Detail.notAuthorizedUpdateProject⟩, db)
    else
      let p2 := applyProjectUpdate db_project pu
      (Except.ok p2,
        { db with projects := db.projects.map (fun q => if q.id == project_id then p2 else q) })

/-- routers/tasks.get_fine_grained_access_control (tasks.py:349-367): look up
the requesting user and the task (404 on either miss), then compute the four
facts: is_admin, is_project_manager (global roles via check_role),
is_task_assignee = task.assigned_to == db_user.id, and
is_project_manager_role = a project_members row for (task.project_id, user)
with role "MANAGER". Returned in the source's tuple order. -/
def get_fine_grained_access_control (current_user : UserInfo) (db : Db) (task_id : String) :
    Except HTTPException (DbTask × Bool × Bool × Bool × Bool) :=
  match lookup_user current_user db with
  | Except.error e => Except.error e
  | Except.ok db_user =>
    match lookup_task task_id db with
    | Except.error e => Except.error e
    | Except.ok db_task =>
      let is_admin := check_role current_user "admin"
      let is_project_manager := check_role current_user "project_manager"
      let is_task_assignee := db_task.assigned_to == some db_user.id
      let is_project_manager_role := db.project_members.any
        (fun m => m.project_id == db_task.project_id && m.user_id == db_user.id &&
          m.role == "MANAGER")
      Except.ok (db_task, is_admin, is_project_manager, is_project_manager_role,
        is_task_assignee)

/-- The optional fields of a TaskUpdate body that the model applies. -/
structure TaskUpdate where
  title : Option String := none
  status : Option String := none
  deriving DecidableEq, Repr

/-- The field-update block of update_task (tasks.py:321-342), restricted to
the modelled columns; each field is applied when present (`is not None`). -/
def applyTaskUpdate (t : DbTask) (tu : TaskUpdate) : DbTask :=
  let t := match tu.title with
    | some v => { t with title := v }
    | none => t
  match tu.status with
  | some v => { t with status := v }
  | none => t

/-- routers/tasks.update_task (tasks.py:273-346): compute the fine-grained
facts; deny with 403 when none of admin / project_manager / assignee / scoped
MANAGER holds (database unchanged; note that being the owner of the task's
project is not among the facts); otherwise apply the update and commit. -/
def update_task (task_id : String) (tu : TaskUpdate) (current_user : UserInfo)
    (db : Db) : Except HTTPException DbTask × Db :=
  match get_fine_grained_access_control current_user db task_id with
  | Except.error e => (Except.error e, db)
  | Except.ok (db_task, is_admin, is_project_manager, is_project_manager_role,
      is_task_assignee) =>
    if !(is_admin || is_project_manager || is_task_assignee || is_project_manager_role) then
      (Except.error ⟨403, Detail.accessDeniedUpdateTask⟩, db)
    else
      let t2 := applyTaskUpdate db_task tu
      (Except.ok t2,
        { db with tasks := db.tasks.map (fun q => if q.id == task_id then t2 else q) })

/-
Shared example inputs used by the concrete theorems and witnesses below.
Times are Unix timestamps in seconds.
-/

/-- Example settings with the defaults of config/settings.py: TTL 3600s,
RS256, audience "account", leeway 30s. -/
def exSettings : Settings := ⟨3600, "RS256", "account", 30⟩

/-- Example cache state: one key "k1" fetched at t = 1000000. -/
def exState : AuthState := ⟨[("k1", "pk1")], some 1000000⟩

/-- Example current time, equal to the cache timestamp of exState. -/
def exNow : Int := 1000000

/-- Example payload that passes every check at time exNow: all required claims
present, exp two hours ahead, audience "account", no nbf. -/
def exPayload : Payload :=
  ⟨some "user-123", some 999000, some 1007200, some "issuer", none, some ["account"]⟩

/-- Example token signed with the cached key "k1" over exPayload. -/
def exTokValid : Token := ⟨some "k1", "RS256", "pk1", exPayload⟩

/-
Helper lemmas (not tied to a single claim).
-/

/-- Helper: list containment agrees with membership for strings. -/
theorem containsIffMem (l : List String) (r : String) : l.contains r = true ↔ r ∈ l := by
  simp [List.contains, List.elem_iff]

/-- Helper: check_role is true exactly when the role is in the realm list or
in some per-client list. -/
theorem check_role_iff (u : UserInfo) (r : String) :
    check_role u r = true ↔
      r ∈ realmRolesOf u ∨ ∃ c ∈ resourceAccessOf u, r ∈ c.2.roles.getD [] := by
  unfold check_role
  by_cases h : (realmRolesOf u).contains r
  · simp only [h, if_true, true_iff]
    exact Or.inl ((containsIffMem _ _).mp h)
  · rw [if_neg h, List.any_eq_true]
    constructor
    · rintro ⟨c, hc, hr⟩
      exact Or.inr ⟨c, hc, (containsIffMem _ _).mp hr⟩
    · rintro (hmem | ⟨c, hc, hr⟩)
      · exact absurd ((containsIffMem _ _).mpr hmem) h
      · exact ⟨c, hc, (containsIffMem _ _).mpr hr⟩

/-- Helper: membership in get_all_roles is membership in the realm list or
some per-client list. -/
theorem get_all_roles_mem (u : UserInfo) (x : String) :
    x ∈ get_all_roles u ↔
      x ∈ realmRolesOf u ∨ ∃ c ∈ resourceAccessOf u, x ∈ c.2.roles.getD [] := by
  unfold get_all_roles
  simp [List.mem_dedup, List.mem_flatMap]

/-- Helper: get_all_roles never contains duplicates. -/
theorem get_all_roles_nodup (u : UserInfo) : (get_all_roles u).Nodup := by
  unfold get_all_roles
  exact List.nodup_dedup _

/-- Helper: the warning effects a JWKS parse emits, computed directly: one
warning per entry that has a kid but fails to parse. -/
def jwkWarnings (keys : List JWK) : List Effect :=
  keys.filterMap (fun j =>
    match j.kid with
    | some kid => match j.material with
      | none => some (Effect.logWarning kid)
      | some _ => none
    | none => none)

/-- Helper: the effect component of parseJwksAux is the initial warning list
followed by one warning per kid-bearing unparsable entry. -/
theorem parseJwksAux_snd (keys : List JWK) : ∀ acc w,
    (parseJwksAux acc w keys).2 = w ++ jwkWarnings keys := by
  induction keys with
  | nil => intro acc w; simp [parseJwksAux, jwkWarnings]
  | cons kd rest ih =>
    intro acc w
    unfold parseJwksAux jwkWarnings
    cases hk : kd.kid with
    | none => rw [ih]; simp [jwkWarnings, List.filterMap_cons, hk]
    | some kid =>
      cases hm : kd.material with
      | some pk => rw [ih]; simp [jwkWarnings, List.filterMap_cons, hk, hm]
      | none => rw [ih]; simp [jwkWarnings, List.filterMap_cons, hk, hm]

/-- Helper: when every entry fails to parse, parseJwksAux adds nothing to the
accumulated dict. -/
theorem parseJwksAux_fst_allbad (keys : List JWK) (hb : ∀ j ∈ keys, j.material = none) :
    ∀ acc w, (parseJwksAux acc w keys).1 = acc := by
  induction keys with
  | nil => intro acc w; rfl
  | cons kd rest ih =>
    intro acc w
    have hkd : kd.material = none := hb kd (List.mem_cons_self kd rest)
    have hrest : ∀ j ∈ rest, j.material = none := fun j hj => hb j (List.mem_cons_of_mem kd hj)
    unfold parseJwksAux
    cases hk : kd.kid with
    | none => exact ih hrest acc w
    | some kid => rw [hkd]; exact ih hrest acc _

/-- Helper: a JWKS parse emits no HTTP fetch effects. -/
theorem countFetch_jwkWarnings (keys : List JWK) : countFetch (jwkWarnings keys) = 0 := by
  induction keys with
  | nil => rfl
  | cons kd rest ih =>
    unfold jwkWarnings at ih ⊢
    rw [List.filterMap_cons]
    cases hk : kd.kid with
    | none => exact ih
    | some kid =>
      cases hm : kd.material with
      | some pk => exact ih
      | none => simpa [countFetch] using ih

/-- Helper: get_public_keys with a valid cache returns the cached dict,
leaves the state unchanged and performs no effect. -/
theorem getKeys_of_valid {s : Settings} {now : Int} {st : AuthState} (net : FetchResult)
    (h : cacheValid s now st = true) :
    get_public_keys s now net st = (Except.ok st.publicKeys, st, []) := by
  unfold get_public_keys
  rw [if_pos h]

/-- Helper: get_public_keys with an invalid cache and a non-empty JWKS
response parses the keys, atomically replaces the cache with the parsed dict
and the current time, and returns the parsed dict. -/
theorem getKeys_of_invalid_response {s : Settings} {now : Int} {st : AuthState}
    {keys : List JWK} (h : cacheValid s now st = false) (hk : keys ≠ []) :
    get_public_keys s now (FetchResult.response keys) st =
      (Except.ok (parseJwks keys).1, ⟨(parseJwks keys).1, some now⟩,
        Effect.httpGet :: (parseJwks keys).2) := by
  unfold get_public_keys
  rw [if_neg (by simp [h])]
  simp [List.isEmpty_iff, hk]

/-- Helper: get_public_keys with an invalid cache and an empty JWKS response
fails with 500 "Failed to retrieve authentication keys" (the inner 500
"No public keys found in Keycloak" is re-wrapped by the generic handler) and
leaves the state unchanged. -/
theorem getKeys_of_invalid_empty {s : Settings} {now : Int} {st : AuthState}
    (h : cacheValid s now st = false) :
    get_public_keys s now (FetchResult.response []) st =
      (Except.error ⟨500, Detail.failedToRetrieveKeys⟩, st,
        [Effect.httpGet, Effect.logError]) := by
  unfold get_public_keys
  rw [if_neg (by simp [h])]
  rfl

/-- Helper: get_public_keys with an invalid cache and a network failure fails
with 503 "Authentication service unavailable" and leaves the state
unchanged. -/
theorem getKeys_of_invalid_network {s : Settings} {now : Int} {st : AuthState}
    (h : cacheValid s now st = false) :
    get_public_keys s now FetchResult.networkError st =
      (Except.error ⟨503, Detail.authServiceUnavailable⟩, st,
        [Effect.httpGet, Effect.logError]) := by
  unfold get_public_keys
  rw [if_neg (by simp [h])]

/-- Helper: one call to get_public_keys performs at most one HTTP fetch. -/
theorem getKeys_count_le_one (s : Settings) (now : Int) (net : FetchResult)
    (st : AuthState) : countFetch (get_public_keys s now net st).2.2 ≤ 1 := by
  by_cases h : cacheValid s now st = true
  · rw [getKeys_of_valid net h]
    simp [countFetch]
  · rw [Bool.not_eq_true] at h
    cases net with
    | networkError => rw [getKeys_of_invalid_network h]; simp [countFetch]
    | response keys =>
      cases hk : keys.isEmpty with
      | true =>
        rw [List.isEmpty_iff] at hk
        subst hk
        rw [getKeys_of_invalid_empty h]
        simp [countFetch]
      | false =>
        have hk2 : keys ≠ [] := by
          intro hc; subst hc; simp at hk
        rw [getKeys_of_invalid_response h hk2]
        show countFetch (Effect.httpGet :: (parseJwks keys).2) ≤ 1
        have hw : (parseJwks keys).2 = jwkWarnings keys := by
          unfold parseJwks
          rw [parseJwksAux_snd, List.nil_append]
        rw [hw]
        have hz := countFetch_jwkWarnings keys
        simp only [countFetch, List.filter_cons] at hz ⊢
        simp [hz]

/-
Claim theorems.
-/

/-- Claim C6: for every identity claim map and every role string,
check_role (hasRole) returns true iff the role appears in the realm-level role
list or in the role list of at least one resource_access entry; in particular
an identity with realm_access.roles = ["admin"] and resource_access = {}
satisfies hasRole for "admin" and not for "user". -/
theorem C6_hasRole_iff_realm_or_client :
    (∀ (u : UserInfo) (r : String),
      check_role u r = true ↔
        r ∈ realmRolesOf u ∨ ∃ c ∈ resourceAccessOf u, r ∈ c.2.roles.getD []) ∧
    check_role ⟨some "u0", some ⟨some ["admin"]⟩, some []⟩ "admin" = true ∧
    check_role ⟨some "u0", some ⟨some ["admin"]⟩, some []⟩ "user" = false :=
  ⟨check_role_iff, by decide, by decide⟩

/-- Claim C10: check_role and get_all_roles are total over the claim-map
shapes the code can receive: missing realm_access / resource_access containers
(or containers lacking a roles entry) are treated as empty lists, check_role
then decides exactly the realm-or-client membership, and get_all_roles is the
deduplicated union of whatever role lists are present — the empty list when
none are. -/
theorem C10_role_helpers_total :
    ∀ (u : UserInfo) (r : String),
      (check_role u r = true ↔
        r ∈ realmRolesOf u ∨ ∃ c ∈ resourceAccessOf u, r ∈ c.2.roles.getD []) ∧
      (get_all_roles u).Nodup ∧
      (∀ x, x ∈ get_all_roles u ↔
        x ∈ realmRolesOf u ∨ ∃ c ∈ resourceAccessOf u, x ∈ c.2.roles.getD []) ∧
      (u.realm_access = none → u.resource_access = none → get_all_roles u = []) ∧
      check_role ⟨none, none, none⟩ r = false := by
  intro u r
  refine ⟨check_role_iff u r, get_all_roles_nodup u, fun x => get_all_roles_mem u x, ?_, ?_⟩
  · intro h1 h2
    simp [get_all_roles, realmRolesOf, resourceAccessOf, h1, h2]
  · simp [check_role, realmRolesOf, resourceAccessOf]

/-- Claim C10 witness: at the identity with both containers absent,
get_all_roles is empty and check_role is false. -/
theorem C10_witness :
    get_all_roles ⟨none, none, none⟩ = [] ∧
    check_role ⟨none, none, none⟩ "admin" = false := by
  have h := C10_role_helpers_total ⟨none, none, none⟩ "admin"
  exact ⟨h.2.2.2.1 rfl rfl, h.2.2.2.2⟩

/-- Claim C8: the cache is valid iff a fetch timestamp exists with
now - timestamp < ttl and the cached set is non-empty; getKeys returns the
cached set with no fetch exactly in that case, and otherwise performs a fetch
(exactly one) and, on a non-empty response, atomically replaces the cache with
the parsed set and the current time before returning it. -/
theorem C8_getKeys_cache_validity :
    ∀ (s : Settings) (now : Int) (net : FetchResult) (st : AuthState),
      (cacheValid s now st = true ↔
        ∃ t, st.cacheTime = some t ∧ now - t < s.PUBLIC_KEY_CACHE_TTL ∧
          st.publicKeys ≠ []) ∧
      (cacheValid s now st = true →
        get_public_keys s now net st = (Except.ok st.publicKeys, st, [])) ∧
      (cacheValid s now st = false → ∀ keys, net = FetchResult.response keys →
        keys ≠ [] →
        get_public_keys s now net st =
          (Except.ok (parseJwks keys).1, ⟨(parseJwks keys).1, some now⟩,
            Effect.httpGet :: (parseJwks keys).2)) ∧
      (cacheValid s now st = false →
        countFetch (get_public_keys s now net st).2.2 = 1) := by
  intro s now net st
  refine ⟨?_, fun h => getKeys_of_valid net h, ?_, ?_⟩
  · unfold cacheValid
    cases hc : st.cacheTime with
    | none => simp
    | some t =>
      simp only [Bool.and_eq_true, decide_eq_true_eq, Bool.not_eq_true]
      constructor
      · rintro ⟨h1, h2⟩
        exact ⟨t, rfl, h1, by simpa [List.isEmpty_iff] using h2⟩
      · rintro ⟨t2, ht2, h1, h2⟩
        cases ht2
        exact ⟨h1, by simpa [List.isEmpty_iff] using h2⟩
  · intro h keys hnet hk
    subst hnet
    exact getKeys_of_invalid_response h hk
  · intro h
    cases net with
    | networkError => rw [getKeys_of_invalid_network h]; rfl
    | response keys =>
      cases hk : keys.isEmpty with
      | true =>
        rw [List.isEmpty_iff] at hk
        subst hk
        rw [getKeys_of_invalid_empty h]
        rfl
      | false =>
        have hk2 : keys ≠ [] := by
          intro hc; subst hc; simp at hk
        rw [getKeys_of_invalid_response h hk2]
        show countFetch (Effect.httpGet :: (parseJwks keys).2) = 1
        have hw : (parseJwks keys).2 = jwkWarnings keys := by
          unfold parseJwks
          rw [parseJwksAux_snd, List.nil_append]
        rw [hw]
        have hz := countFetch_jwkWarnings keys
        simp only [countFetch, List.filter_cons] at hz ⊢
        simp [hz]

/-- Claim C8 witness (concrete scenario 5 of the spec): with TTL 3600s and a
cache fetched at t = 0, a call at t = 7200 (a 2-hour-old cache) refetches,
replaces the cache and returns the fresh set. -/
theorem C8_witness :
    get_public_keys exSettings 7200 (FetchResult.response [⟨some "k1", some "pk1"⟩])
        ⟨[("k0", "p0")], some 0⟩ =
      (Except.ok [("k1", "pk1")], ⟨[("k1", "pk1")], some 7200⟩, [Effect.httpGet]) := by
  have h := (C8_getKeys_cache_validity exSettings 7200
    (FetchResult.response [⟨some "k1", some "pk1"⟩]) ⟨[("k0", "p0")], some 0⟩).2.2.1
    (by decide) [⟨some "k1", some "pk1"⟩] rfl (by decide)
  rw [h]
  rfl

/-- Claim C9 counterexample: a fetch whose response consists of a single
unparsable key entry does not fail — get_public_keys skips the entry with a
warning, then returns the empty dict and caches it (with a fresh timestamp),
contrary to the claim that it fails with KeySourceMalformed rather than
returning or caching an empty key set. -/
theorem C9_counterexample :
    get_public_keys exSettings exNow (FetchResult.response [⟨some "bad", none⟩])
        ⟨[], none⟩ =
      (Except.ok [], ⟨[], some exNow⟩, [Effect.httpGet, Effect.logWarning "bad"]) := by
  rfl

/-- Claim C9 (amended): on a cache miss, a response with no keys fails with
the internal-error condition (500); a non-empty response never fails: each
kid-bearing unparsable entry is skipped with exactly one warning, and when
every entry fails to parse the resulting empty dict is returned and cached
rather than treated as an error. -/
theorem C9_unparsable_keys_skipped :
    ∀ (s : Settings) (now : Int) (st : AuthState) (keys : List JWK),
      cacheValid s now st = false →
      (keys = [] →
        (get_public_keys s now (FetchResult.response keys) st).1 =
          Except.error ⟨500, Detail.failedToRetrieveKeys⟩) ∧
      (keys ≠ [] →
        get_public_keys s now (FetchResult.response keys) st =
          (Except.ok (parseJwks keys).1, ⟨(parseJwks keys).1, some now⟩,
            Effect.httpGet :: (parseJwks keys).2)) ∧
      (parseJwks keys).2 = jwkWarnings keys ∧
      ((∀ j ∈ keys, j.material = none) → (parseJwks keys).1 = []) := by
  intro s now st keys h
  refine ⟨?_, fun hk => getKeys_of_invalid_response h hk, ?_, ?_⟩
  · intro hk
    subst hk
    rw [getKeys_of_invalid_empty h]
  · unfold parseJwks
    rw [parseJwksAux_snd, List.nil_append]
  · intro hb
    unfold parseJwks
    exact parseJwksAux_fst_allbad keys hb [] []

/-- Claim C9 witness: at the all-unparsable single-entry response, the parsed
dict is empty and getKeys returns it successfully with one warning. -/
theorem C9_witness :
    (parseJwks [⟨some "bad", none⟩]).1 = [] ∧
    get_public_keys exSettings exNow (FetchResult.response [⟨some "bad", none⟩])
        ⟨[], none⟩ =
      (Except.ok (parseJwks [⟨some "bad", none⟩]).1,
        ⟨(parseJwks [⟨some "bad", none⟩]).1, some exNow⟩,
        Effect.httpGet :: (parseJwks [⟨some "bad", none⟩]).2) := by
  have h := C9_unparsable_keys_skipped exSettings exNow ⟨[], none⟩ [⟨some "bad", none⟩] rfl
  exact ⟨h.2.2.2 (by decide), h.2.1 (by decide)⟩

/-- Helper: the effect trace of a successful cache-miss fetch contains exactly
one HTTP fetch (the warnings contribute none). -/
theorem countFetch_fetchTrace (keys : List JWK) :
    countFetch (Effect.httpGet :: (parseJwks keys).2) = 1 := by
  have hw : (parseJwks keys).2 = jwkWarnings keys := by
    unfold parseJwks
    rw [parseJwksAux_snd, List.nil_append]
  rw [hw]
  have hz := countFetch_jwkWarnings keys
  simp only [countFetch, List.filter_cons] at hz ⊢
  simp [hz]

/-- Helper: with a valid cache that lacks the requested kid and a non-empty
JWKS response, get_public_key_by_kid clears the cache timestamp, performs the
single forced refresh (the only fetch of the call), installs the freshly
parsed dict, and resolves the kid against it. -/
theorem byKid_forced_refresh (s : Settings) (now : Int) (keys : List JWK) (kid : String)
    (st : AuthState) (hv : cacheValid s now st = true)
    (hmiss : dictLookup st.publicKeys kid = none) (hk : keys ≠ []) :
    get_public_key_by_kid s now (FetchResult.response keys) kid st =
      ((match dictLookup (parseJwks keys).1 kid with
        | some k => Except.ok k
        | none => Except.error ⟨401, Detail.publicKeyNotFound kid⟩),
       ⟨(parseJwks keys).1, some now⟩,
       Effect.httpGet :: (parseJwks keys).2) := by
  have hv2 : cacheValid s now ⟨st.publicKeys, none⟩ = false := rfl
  have h1 := @getKeys_of_valid s now st (FetchResult.response keys) hv
  have h2 := @getKeys_of_invalid_response s now ⟨st.publicKeys, none⟩ keys hv2 hk
  unfold get_public_key_by_kid
  rw [h1]
  simp only []
  rw [hmiss]
  simp only []
  rw [h2]
  simp only [List.nil_append]
  cases hl : dictLookup (parseJwks keys).1 kid <;> simp

/-- Claim C4: for a kid absent from the (valid) cached key set,
get_public_key_by_kid performs exactly one forced cache refresh (its only
fetch, bypassing the TTL); if the kid is still absent from the refreshed set
it fails with the 401 KeyNotFound condition ("Public key not found for kid"),
which verify surfaces to its caller as an unauthorized (401) failure; if the
refreshed set contains the kid, the key is returned. -/
theorem C4_forced_refresh_once :
    ∀ (s : Settings) (now : Int) (keys : List JWK) (kid : String) (st : AuthState),
      cacheValid s now st = true →
      dictLookup st.publicKeys kid = none →
      keys ≠ [] →
      countFetch (get_public_key_by_kid s now (FetchResult.response keys) kid st).2.2 = 1 ∧
      (dictLookup (parseJwks keys).1 kid = none →
        (get_public_key_by_kid s now (FetchResult.response keys) kid st).1 =
          Except.error ⟨401, Detail.publicKeyNotFound kid⟩) ∧
      (∀ k, dictLookup (parseJwks keys).1 kid = some k →
        (get_public_key_by_kid s now (FetchResult.response keys) kid st).1 =
          Except.ok k) ∧
      (∀ tok : Token, tok.kid = some kid → dictLookup (parseJwks keys).1 kid = none →
        (verify_token s now (FetchResult.response keys) tok st).1 =
          Except.error ⟨401, Detail.tokenVerificationFailed⟩) := by
  intro s now keys kid st hv hmiss hk
  have hbk := byKid_forced_refresh s now keys kid st hv hmiss hk
  refine ⟨?_, ?_, ?_, ?_⟩
  · rw [hbk]
    exact countFetch_fetchTrace keys
  · intro hnone
    rw [hbk]
    simp only []
    rw [hnone]
  · intro k hsome
    rw [hbk]
    simp only []
    rw [hsome]
  · intro tok htok hnone
    unfold verify_token
    rw [htok]
    simp only []
    rw [hbk, hnone]

/-- Claim C4 witness: with the cache holding only "k1" at exNow, requesting
"k2" forces one refresh; a refreshed set without "k2" yields the 401
KeyNotFound error, a refreshed set with "k2" yields its key. -/
theorem C4_witness :
    (get_public_key_by_kid exSettings exNow
        (FetchResult.response [⟨some "k9", some "pk9"⟩]) "k2" exState).1 =
      Except.error ⟨401, Detail.publicKeyNotFound "k2"⟩ ∧
    (get_public_key_by_kid exSettings exNow
        (FetchResult.response [⟨some "k2", some "pk2"⟩]) "k2" exState).1 =
      Except.ok "pk2" := by
  have h1 := C4_forced_refresh_once exSettings exNow [⟨some "k9", some "pk9"⟩] "k2"
    exState (by decide) (by decide) (by decide)
  have h2 := C4_forced_refresh_once exSettings exNow [⟨some "k2", some "pk2"⟩] "k2"
    exState (by decide) (by decide) (by decide)
  exact ⟨h1.2.1 (by decide), h2.2.2.1 "pk2" (by decide)⟩

/-- Example token identical to exTokValid except that nbf is one hour in the
future (nbf = exNow + 3600, far beyond the 30s leeway). -/
def exTokNbf : Token := ⟨some "k1", "RS256", "pk1", { exPayload with nbf := some 1003600 }⟩

/-- Example token identical to exTokValid except that the payload lacks the
iss claim. -/
def exTokNoIss : Token := ⟨some "k1", "RS256", "pk1", { exPayload with iss := none }⟩

/-- Helper: countFetch distributes over list append. -/
theorem countFetch_append (a b : List Effect) :
    countFetch (a ++ b) = countFetch a + countFetch b := by
  simp [countFetch, List.filter_append]

/-- Helper: the stdout print contributes no fetch. -/
theorem countFetch_print (t : Token) (l : List Effect) :
    countFetch (Effect.printToken t :: l) = countFetch l := by
  simp [countFetch, List.filter_cons]

/-- Helper: a trailing log record contributes no fetch. -/
theorem countFetch_logErr (l : List Effect) :
    countFetch (l ++ [Effect.logError]) = countFetch l := by
  rw [countFetch_append]
  rfl

/-- Helper: when the network is down, a successful get_public_keys call can
only have been a cache hit, so its trace is empty. -/
theorem getKeys_network_ok (s : Settings) (now : Int) (st : AuthState)
    (pk : List (String × String)) (st1 : AuthState) (fx : List Effect)
    (h : get_public_keys s now FetchResult.networkError st = (Except.ok pk, st1, fx)) :
    fx = [] := by
  by_cases hv : cacheValid s now st = true
  · rw [getKeys_of_valid FetchResult.networkError hv] at h
    simp only [Prod.mk.injEq] at h
    exact h.2.2.symm
  · rw [Bool.not_eq_true] at hv
    rw [getKeys_of_invalid_network hv] at h
    simp at h

/-- Helper: one get_public_key_by_kid call performs at most two fetches (the
regular one plus the single forced refresh). -/
theorem byKid_count_le_two (s : Settings) (now : Int) (net : FetchResult) (kid : String)
    (st : AuthState) : countFetch (get_public_key_by_kid s now net kid st).2.2 ≤ 2 := by
  unfold get_public_key_by_kid
  split
  next e st1 fx heq =>
    have h := getKeys_count_le_one s now net st
    rw [heq] at h
    exact h.trans (by omega)
  next pk st1 fx heq =>
    have h : countFetch fx ≤ 1 := by
      have h0 := getKeys_count_le_one s now net st
      rw [heq] at h0
      exact h0
    split
    · exact h.trans (by omega)
    · split
      next e2 st3 fx2 heq2 =>
        have h2 : countFetch fx2 ≤ 1 := by
          have h0 := getKeys_count_le_one s now net ⟨st1.publicKeys, none⟩
          rw [heq2] at h0
          exact h0
        rw [countFetch_append]
        omega
      next pk2 st3 fx2 heq2 =>
        have h2 : countFetch fx2 ≤ 1 := by
          have h0 := getKeys_count_le_one s now net ⟨st1.publicKeys, none⟩
          rw [heq2] at h0
          exact h0
        split
        · rw [countFetch_append]; omega
        · rw [countFetch_append]; omega

/-- Helper: when the network is down, get_public_key_by_kid performs at most
one fetch attempt (a failed first fetch short-circuits before the forced
refresh; a cache hit followed by a forced refresh attempts one fetch). -/
theorem byKid_count_network_le_one (s : Settings) (now : Int) (kid : String)
    (st : AuthState) :
    countFetch (get_public_key_by_kid s now FetchResult.networkError kid st).2.2 ≤ 1 := by
  unfold get_public_key_by_kid
  split
  next e st1 fx heq =>
    have h := getKeys_count_le_one s now FetchResult.networkError st
    rw [heq] at h
    exact h
  next pk st1 fx heq =>
    have hfx : fx = [] := getKeys_network_ok s now st pk st1 fx heq
    subst hfx
    split
    · simp [countFetch]
    · split
      next e2 st3 fx2 heq2 =>
        have h2 := getKeys_count_le_one s now FetchResult.networkError ⟨st1.publicKeys, none⟩
        rw [heq2] at h2
        simpa using h2
      next pk2 st3 fx2 heq2 =>
        have h2 := getKeys_count_le_one s now FetchResult.networkError ⟨st1.publicKeys, none⟩
        rw [heq2] at h2
        split
        · simpa using h2
        · simpa using h2

/-- Helper: a verify_token call performs at most two fetches. -/
theorem verify_count_le_two (s : Settings) (now : Int) (net : FetchResult) (tok : Token)
    (st : AuthState) : countFetch (verify_token s now net tok st).2.2 ≤ 2 := by
  cases htok : tok.kid with
  | none =>
    unfold verify_token
    rw [htok]
    simp [countFetch]
  | some kid =>
    have hb := byKid_count_le_two s now net kid st
    unfold verify_token
    rw [htok]
    simp only []
    split
    next e st1 fx heq =>
      rw [heq] at hb
      rw [countFetch_print, countFetch_logErr]
      exact hb
    next key st1 fx heq =>
      rw [heq] at hb
      repeat' split
      all_goals first
        | (rw [countFetch_print, countFetch_logErr]; exact hb)
        | (rw [countFetch_print]; exact hb)

/-- Helper: when the network is down, a verify_token call performs at most one
fetch attempt. -/
theorem verify_count_network_le_one (s : Settings) (now : Int) (tok : Token)
    (st : AuthState) :
    countFetch (verify_token s now FetchResult.networkError tok st).2.2 ≤ 1 := by
  cases htok : tok.kid with
  | none =>
    unfold verify_token
    rw [htok]
    simp [countFetch]
  | some kid =>
    have hb := byKid_count_network_le_one s now kid st
    unfold verify_token
    rw [htok]
    simp only []
    split
    next e st1 fx heq =>
      rw [heq] at hb
      rw [countFetch_print, countFetch_logErr]
      exact hb
    next key st1 fx heq =>
      rw [heq] at hb
      repeat' split
      all_goals first
        | (rw [countFetch_print, countFetch_logErr]; exact hb)
        | (rw [countFetch_print]; exact hb)

/-- Helper: every failure of verify_token reaches the caller with status 401
and one of the five detail strings raised by its own handler chain — never
with a detail raised inside the try block (those are all re-wrapped by the
generic `except Exception` handler). -/
theorem verify_error_cases :
    ∀ (s : Settings) (now : Int) (net : FetchResult) (tok : Token) (st : AuthState)
      (e : HTTPException) (st2 : AuthState) (fx : List Effect),
      verify_token s now net tok st = (Except.error e, st2, fx) →
      e.status_code = 401 ∧
      (e.detail = Detail.tokenVerificationFailed ∨ e.detail = Detail.tokenExpired ∨
       e.detail = Detail.invalidTokenAudience ∨ e.detail = Detail.invalidTokenSignature ∨
       e.detail = Detail.invalidTokenFormat) := by
  intro s now net tok st e st2 fx h
  unfold verify_token at h
  repeat' split at h
  all_goals simp only [Prod.mk.injEq, Except.error.injEq] at h
  all_goals first
    | (obtain ⟨he, -, -⟩ := h
       subst he
       exact ⟨rfl, by simp⟩)
    | exact absurd h.1 (by simp)

/-- Helper: the full tuple form of a verify_token result, recovered from an
equation about its error component. -/
theorem verify_eq_of_fst {s : Settings} {now : Int} {net : FetchResult} {tok : Token}
    {st : AuthState} {e : HTTPException}
    (h : (verify_token s now net tok st).1 = Except.error e) :
    verify_token s now net tok st =
      (Except.error e, (verify_token s now net tok st).2.1,
        (verify_token s now net tok st).2.2) := by
  rw [← h]

/-- Claim C1: a token whose nbf is one hour in the future (far beyond the 30s
leeway) and that is otherwise well-formed is rejected by verify with the 401
detail "Invalid token format" — not with the TokenNotYetValid category: PyJWT
itself rejects the future nbf at decode time with ImmatureSignatureError,
which the handler chain only catches via the generic InvalidTokenError branch.
The dedicated nbf check of _validate_token_payload does classify this payload
as "Token not yet valid" (second conjunct), but no caller of verify can ever
observe that category (third conjunct): even when the dedicated check fires,
its HTTPException is swallowed by the catch-all handler. -/
theorem C1_nbf_rejected_as_invalid_format :
    (verify_token exSettings exNow (FetchResult.response []) exTokNbf exState).1 =
      Except.error ⟨401, Detail.invalidTokenFormat⟩ ∧
    validate_token_payload exNow exTokNbf.payload =
      Except.error ⟨401, Detail.tokenNotYetValid⟩ ∧
    ∀ (s : Settings) (now : Int) (net : FetchResult) (tok : Token) (st : AuthState),
      (verify_token s now net tok st).1 ≠
        Except.error ⟨401, Detail.tokenNotYetValid⟩ := by
  refine ⟨rfl, rfl, ?_⟩
  intro s now net tok st h
  have h2 := verify_error_cases s now net tok st ⟨401, Detail.tokenNotYetValid⟩
    (verify_token s now net tok st).2.1 (verify_token s now net tok st).2.2
    (verify_eq_of_fst h)
  rcases h2.2 with h3 | h3 | h3 | h3 | h3 <;> simp at h3

/-- Claim C2: a token that passes signature, expiry and audience checks but
whose payload lacks the iss claim is rejected by verify with the generic 401
detail "Token verification failed" — the required-claims check of
_validate_token_payload does build the 401 naming ["iss"] (second conjunct),
but its HTTPException is re-wrapped by verify_token's catch-all `except
Exception` handler, so no caller of verify can ever observe a MissingClaims
detail (third conjunct). -/
theorem C2_missing_iss_detail_swallowed :
    (verify_token exSettings exNow (FetchResult.response []) exTokNoIss exState).1 =
      Except.error ⟨401, Detail.tokenVerificationFailed⟩ ∧
    validate_token_payload exNow exTokNoIss.payload =
      Except.error ⟨401, Detail.missingRequiredClaims ["iss"]⟩ ∧
    ∀ (s : Settings) (now : Int) (net : FetchResult) (tok : Token) (st : AuthState)
      (cs : List String),
      (verify_token s now net tok st).1 ≠
        Except.error ⟨401, Detail.missingRequiredClaims cs⟩ := by
  refine ⟨rfl, rfl, ?_⟩
  intro s now net tok st cs h
  have h2 := verify_error_cases s now net tok st ⟨401, Detail.missingRequiredClaims cs⟩
    (verify_token s now net tok st).2.1 (verify_token s now net tok st).2.2
    (verify_eq_of_fst h)
  rcases h2.2 with h3 | h3 | h3 | h3 | h3 <;> simp at h3

/-- Claim C3: a direct get_public_keys call on a network failure does fail
with 503 "Authentication service unavailable" (first conjunct), but when the
same failure happens inside verify (via key lookup) the caller receives 401
"Token verification failed" instead — the catch-all handler converts the 503
HTTPException into an unauthorized one (second conjunct); indeed every verify
failure whatsoever carries status 401 (third conjunct). The retry bound does
hold: at most one fetch attempt per verify call when the network is down, and
at most two fetches ever (the TTL fetch plus the single forced refresh). -/
theorem C3_network_failure_as_401 :
    (get_public_keys exSettings exNow FetchResult.networkError ⟨[], none⟩).1 =
      Except.error ⟨503, Detail.authServiceUnavailable⟩ ∧
    (verify_token exSettings exNow FetchResult.networkError exTokValid ⟨[], none⟩).1 =
      Except.error ⟨401, Detail.tokenVerificationFailed⟩ ∧
    (∀ (s : Settings) (now : Int) (net : FetchResult) (tok : Token) (st : AuthState)
       (e : HTTPException) (st2 : AuthState) (fx : List Effect),
      verify_token s now net tok st = (Except.error e, st2, fx) →
      e.status_code = 401) ∧
    (∀ (s : Settings) (now : Int) (tok : Token) (st : AuthState),
      countFetch (verify_token s now FetchResult.networkError tok st).2.2 ≤ 1) ∧
    (∀ (s : Settings) (now : Int) (net : FetchResult) (tok : Token) (st : AuthState),
      countFetch (verify_token s now net tok st).2.2 ≤ 2) := by
  refine ⟨rfl, rfl, ?_, ?_, ?_⟩
  · intro s now net tok st e st2 fx h
    exact (verify_error_cases s now net tok st e st2 fx h).1
  · intro s now tok st
    exact verify_count_network_le_one s now tok st
  · intro s now net tok st
    exact verify_count_le_two s now net tok st

/-- Claim C5: every call of verify_token, whatever the input, begins by
printing the raw bearer token to stdout (print at oidc_auth.py:114) — an
output of the token beyond the security logging of failure reasons. -/
theorem C5_verify_prints_raw_token :
    ∀ (s : Settings) (now : Int) (net : FetchResult) (tok : Token) (st : AuthState),
      ((verify_token s now net tok st).2.2).head? = some (Effect.printToken tok) := by
  intro s now net tok st
  unfold verify_token
  repeat' split
  all_goals rfl

/-- Example database: user U1 (Keycloak id KC1) owns project P1; task T1
belongs to P1 and is assigned to the other user U2; no membership rows. -/
def exDb : Db :=
  ⟨[⟨"U1", "KC1"⟩, ⟨"U2", "KC2"⟩],
   [⟨"P1", "U1", "proj", "", "", none⟩],
   [],
   [⟨"T1", "P1", some "U2", "task", ""⟩]⟩

/-- Example identity: the token of the owner of project P1, with no global
roles. -/
def exOwner : UserInfo := { sub := some "KC1" }

/-- Claim C7 counterexample: the owner of project P1 (no global roles, not
the assignee, no MANAGER membership) is granted the update of the project via
the owner fact, but is denied (403, database unchanged) the update of task T1
of that very project — project ownership is not among the facts of the task
decision, so the task decision is not "the project-update facts plus the
assignee". -/
theorem C7_counterexample :
    lookup_user exOwner exDb = Except.ok ⟨"U1", "KC1"⟩ ∧
    lookup_task "T1" exDb = Except.ok ⟨"T1", "P1", some "U2", "task", ""⟩ ∧
    get_fine_grained_role exOwner exDb "P1" =
      Except.ok (⟨"P1", "U1", "proj", "", "", none⟩, false, true, false) ∧
    (update_project "P1" {} exOwner exDb).1 =
      Except.ok ⟨"P1", "U1", "proj", "", "", none⟩ ∧
    update_task "T1" {} exOwner exDb =
      (Except.error ⟨403, Detail.accessDeniedUpdateTask⟩, exDb) :=
  ⟨rfl, rfl, rfl, rfl, rfl⟩

/-- Claim C7 (amended): each fine-grained decision is the logical OR of its
own facts — project update grants iff global admin-or-project_manager, or
project owner, or scoped MANAGER member; task update grants iff global admin,
or global project_manager, or current assignee, or scoped MANAGER member (the
project owner is not thereby granted task update) — and whenever none of the
relevant facts hold the operation fails with 403 Forbidden and the database
is returned unchanged. -/
theorem C7_decision_is_or_of_facts :
    ∀ (cu : UserInfo) (db : Db),
      (∀ (pid : String) (pu : ProjectUpdate) (p : Project) (a o m : Bool),
        get_fine_grained_role cu db pid = Except.ok (p, a, o, m) →
        ((a || o || m) = false →
          update_project pid pu cu db =
            (Except.error ⟨403, Detail.notAuthorizedUpdateProject⟩, db)) ∧
        ((a || o || m) = true →
          (update_project pid pu cu db).1 = Except.ok (applyProjectUpdate p pu))) ∧
      (∀ (tid : String) (tu : TaskUpdate) (t : DbTask) (ia ipm ipmr ias : Bool),
        get_fine_grained_access_control cu db tid = Except.ok (t, ia, ipm, ipmr, ias) →
        ((ia || ipm || ias || ipmr) = false →
          update_task tid tu cu db =
            (Except.error ⟨403, Detail.accessDeniedUpdateTask⟩, db)) ∧
        ((ia || ipm || ias || ipmr) = true →
          (update_task tid tu cu db).1 = Except.ok (applyTaskUpdate t tu))) := by
  intro cu db
  constructor
  · intro pid pu p a o m h
    unfold update_project
    rw [h]
    simp only []
    constructor
    · intro hf
      rw [hf]
      simp
    · intro ht
      rw [ht]
      simp
  · intro tid tu t ia ipm ipmr ias h
    unfold update_task
    rw [h]
    simp only []
    constructor
    · intro hf
      rw [hf]
      simp
    · intro ht
      rw [ht]
      simp

/-- Claim C7 witness: at the example database, the owner identity is granted
project update and denied task update with the database unchanged. -/
theorem C7_witness :
    (update_project "P1" {} exOwner exDb).1 =
      Except.ok (applyProjectUpdate ⟨"P1", "U1", "proj", "", "", none⟩ {}) ∧
    update_task "T1" {} exOwner exDb =
      (Except.error ⟨403, Detail.accessDeniedUpdateTask⟩, exDb) := by
  have h := C7_decision_is_or_of_facts exOwner exDb
  exact ⟨(h.1 "P1" {} ⟨"P1", "U1", "proj", "", "", none⟩ false true false rfl).2 rfl,
    (h.2 "T1" {} ⟨"T1", "P1", some "U2", "task", ""⟩ false false false false rfl).1 rfl⟩

end BMG
